import Mathlib

/-!
Shallow embedding of src/wcl.py: a single-class client (WCL) for a REST API.
Each method builds a request URI by string interpolation from a base URI
(request_uri), path identifiers, an optional parameter mapping, and a secret
key (api_key), then performs a GET and returns the decoded JSON body.

Modelling conventions:
* Python dictionaries of parameters are insertion-ordered, so a parameter
  mapping is a list of key/value pairs in insertion order.
* Parameter values may be strings or integers in the callers; the Python code
  applies str() to the value, modelled by PValue.toStr.
* The HTTP transport (requests.get) and the JSON decoder (response.json())
  are library code outside this repository; they are passed as explicit
  function parameters.  A transport failure and a JSON decode failure are the
  two distinct exception types the Python code can propagate, modelled by the
  two constructors of ReqError.
* The class attributes request_uri and api_key are fields of the WCL
  structure; every method returns its result paired with the (unchanged)
  state, making state passing explicit.
-/

/-- A parameter value as supplied by callers: a string or an integer.
The Python code applies str() to it when formatting. -/
inductive PValue
  | str : String → PValue
  | int : Int → PValue
deriving DecidableEq

/-- Python str() on a parameter value. -/
def PValue.toStr : PValue → String
  | .str s => s
  | .int n => toString n

/-- WCL.__format_params (src/wcl.py lines 56-70): starting from the empty
string, append the three-part chunk "and-sign, key, equals-sign, value" for
each entry in order, then remove the first character. -/
def format_params (params : List (String × PValue)) : String :=
  (params.foldl (fun paramstring kv => paramstring ++ "&" ++ kv.1 ++ "=" ++ kv.2.toStr) "").drop 1

/-- The error a request can propagate: a transport (network) fault from
requests.get, or a JSON decode fault from response.json().  The two are
distinct constructors, hence distinguishable by the caller. -/
inductive ReqError
  | transportErr : String → ReqError
  | decodeErr : String → ReqError
deriving DecidableEq

/-- WCL.__make_request (src/wcl.py lines 42-54): perform the GET on the given
URI and return the decoded JSON body.  The transport and the decoder are
library code passed as parameters; each may fail, and its failure propagates
tagged with its own constructor. -/
def make_request (J : Type) (decode : String → Except String J)
    (transport : String → Except String String) (uri : String) : Except ReqError J :=
  match transport uri with
  | Except.error e => Except.error (ReqError.transportErr e)
  | Except.ok body =>
    match decode body with
    | Except.error e => Except.error (ReqError.decodeErr e)
    | Except.ok j => Except.ok j

/-- The WCL client state: base request URI and secret API key
(src/wcl.py lines 39-40). -/
structure WCL where
  request_uri : String
  api_key : String
deriving DecidableEq

/-- URI built by WCL.get_zone_list (src/wcl.py line 75). -/
def WCL.zone_list_uri (self : WCL) : String :=
  self.request_uri ++ "/zones&api_key=" ++ self.api_key

/-- URI built by WCL.get_class_list (src/wcl.py line 81). -/
def WCL.class_list_uri (self : WCL) : String :=
  self.request_uri ++ "/classes&api_key=" ++ self.api_key

/-- URI built by WCL.get_rankings_list_encounter (src/wcl.py line 97). -/
def WCL.rankings_encounter_uri (self : WCL) (encounterID : Int)
    (params : List (String × PValue)) : String :=
  self.request_uri ++ "/rankings/encounter/" ++ toString encounterID ++ "?" ++
    format_params params ++ "&api_key=" ++ self.api_key

/-- URI built by WCL.get_rankings_list_character (src/wcl.py line 122). -/
def WCL.rankings_character_uri (self : WCL)
    (characterName serverName serverRegion : String)
    (params : List (String × PValue)) : String :=
  self.request_uri ++ "/rankings/character/" ++ characterName ++ "/" ++
    serverName ++ "/" ++ serverRegion ++ "?" ++
    format_params params ++ "&api_key=" ++ self.api_key

/-- URI built by WCL.get_parses_list_character (src/wcl.py line 147). -/
def WCL.parses_character_uri (self : WCL)
    (characterName serverName serverRegion : String)
    (params : List (String × PValue)) : String :=
  self.request_uri ++ "/parses/character/" ++ characterName ++ "/" ++
    serverName ++ "/" ++ serverRegion ++ "?" ++
    format_params params ++ "&api_key=" ++ self.api_key

/-- URI built by WCL.get_reports_list_guild (src/wcl.py line 172). -/
def WCL.reports_guild_uri (self : WCL)
    (guildName serverName serverRegion : String)
    (params : List (String × PValue)) : String :=
  self.request_uri ++ "/reports/guild/" ++ guildName ++ "/" ++
    serverName ++ "/" ++ serverRegion ++ "?" ++
    format_params params ++ "&api_key=" ++ self.api_key

/-- URI built by WCL.get_reports_list_user (src/wcl.py line 191). -/
def WCL.reports_user_uri (self : WCL) (userName : String)
    (params : List (String × PValue)) : String :=
  self.request_uri ++ "/reports/user/" ++ userName ++ "?" ++
    format_params params ++ "&api_key=" ++ self.api_key

/-- URI built by WCL.get_report_list_encounter (src/wcl.py line 210). -/
def WCL.report_fights_uri (self : WCL) (code : String)
    (params : List (String × PValue)) : String :=
  self.request_uri ++ "/report/fights/" ++ code ++ "?" ++
    format_params params ++ "&api_key=" ++ self.api_key

/-- URI built by WCL.get_report_list_events (src/wcl.py line 232). -/
def WCL.report_events_uri (self : WCL) (view code : String)
    (params : List (String × PValue)) : String :=
  self.request_uri ++ "/report/events/" ++ view ++ "/" ++ code ++ "?" ++
    format_params params ++ "&api_key=" ++ self.api_key

/-- URI built by WCL.get_report_list_tables (src/wcl.py line 255). -/
def WCL.report_tables_uri (self : WCL) (view code : String)
    (params : List (String × PValue)) : String :=
  self.request_uri ++ "/report/tables/" ++ view ++ "/" ++ code ++ "?" ++
    format_params params ++ "&api_key=" ++ self.api_key

/-- WCL.get_zone_list (src/wcl.py lines 72-76). -/
def WCL.get_zone_list (self : WCL) (J : Type) (decode : String → Except String J)
    (transport : String → Except String String) : Except ReqError J × WCL :=
  (make_request J decode transport self.zone_list_uri, self)

/-- WCL.get_class_list (src/wcl.py lines 78-82). -/
def WCL.get_class_list (self : WCL) (J : Type) (decode : String → Except String J)
    (transport : String → Except String String) : Except ReqError J × WCL :=
  (make_request J decode transport self.class_list_uri, self)

/-- WCL.get_rankings_list_encounter (src/wcl.py lines 84-98). -/
def WCL.get_rankings_list_encounter (self : WCL) (J : Type)
    (decode : String → Except String J) (transport : String → Except String String)
    (encounterID : Int) (params : List (String × PValue)) : Except ReqError J × WCL :=
  (make_request J decode transport (self.rankings_encounter_uri encounterID params), self)

/-- WCL.get_rankings_list_character (src/wcl.py lines 100-123). -/
def WCL.get_rankings_list_character (self : WCL) (J : Type)
    (decode : String → Except String J) (transport : String → Except String String)
    (characterName serverName serverRegion : String)
    (params : List (String × PValue)) : Except ReqError J × WCL :=
  (make_request J decode transport
    (self.rankings_character_uri characterName serverName serverRegion params), self)

/-- WCL.get_parses_list_character (src/wcl.py lines 125-148). -/
def WCL.get_parses_list_character (self : WCL) (J : Type)
    (decode : String → Except String J) (transport : String → Except String String)
    (characterName serverName serverRegion : String)
    (params : List (String × PValue)) : Except ReqError J × WCL :=
  (make_request J decode transport
    (self.parses_character_uri characterName serverName serverRegion params), self)

/-- WCL.get_reports_list_guild (src/wcl.py lines 150-173). -/
def WCL.get_reports_list_guild (self : WCL) (J : Type)
    (decode : String → Except String J) (transport : String → Except String String)
    (guildName serverName serverRegion : String)
    (params : List (String × PValue)) : Except ReqError J × WCL :=
  (make_request J decode transport
    (self.reports_guild_uri guildName serverName serverRegion params), self)

/-- WCL.get_reports_list_user (src/wcl.py lines 175-192). -/
def WCL.get_reports_list_user (self : WCL) (J : Type)
    (decode : String → Except String J) (transport : String → Except String String)
    (userName : String) (params : List (String × PValue)) : Except ReqError J × WCL :=
  (make_request J decode transport (self.reports_user_uri userName params), self)

/-- WCL.get_report_list_encounter (src/wcl.py lines 194-211). -/
def WCL.get_report_list_encounter (self : WCL) (J : Type)
    (decode : String → Except String J) (transport : String → Except String String)
    (code : String) (params : List (String × PValue)) : Except ReqError J × WCL :=
  (make_request J decode transport (self.report_fights_uri code params), self)

/-- WCL.get_report_list_events (src/wcl.py lines 213-233). -/
def WCL.get_report_list_events (self : WCL) (J : Type)
    (decode : String → Except String J) (transport : String → Except String String)
    (view code : String) (params : List (String × PValue)) : Except ReqError J × WCL :=
  (make_request J decode transport (self.report_events_uri view code params), self)

/-- WCL.get_report_list_tables (src/wcl.py lines 235-256). -/
def WCL.get_report_list_tables (self : WCL) (J : Type)
    (decode : String → Except String J) (transport : String → Except String String)
    (view code : String) (params : List (String × PValue)) : Except ReqError J × WCL :=
  (make_request J decode transport (self.report_tables_uri view code params), self)

/-- Percent-encoding of the URL-reserved characters the specification names
(space, percent sign, forward slash), following the words of the
specification.  The source code performs no such encoding; this definition
exists only to compare the code against the specification. -/
def percentEncodeChar (c : Char) : String :=
  if c = ' ' then "%20"
  else if c = '%' then "%25"
  else if c = '/' then "%2F"
  else String.singleton c

/-- Percent-encoding of a whole string, character by character, following the
words of the specification. -/
def percentEncode (s : String) : String :=
  String.join (s.data.map percentEncodeChar)

/-- The string pat occurs as a contiguous substring of s. -/
def containsSubstr (pat s : String) : Prop :=
  ∃ x y : String, s = x ++ pat ++ y

/-- A concrete client state used in the concrete scenarios of the
specification: base URI https://host/v1 and key KEY123. -/
def wclTest : WCL := ⟨"https://host/v1", "KEY123"⟩

/-- Percent-decoding restricted to the escape sequences of the three
reserved characters the specification names; used to state the
encode/decode round-trip the specification requires. -/
def percentDecodeChars : List Char → List Char
  | '%' :: '2' :: '0' :: rest => ' ' :: percentDecodeChars rest
  | '%' :: '2' :: '5' :: rest => '%' :: percentDecodeChars rest
  | '%' :: '2' :: 'F' :: rest => '/' :: percentDecodeChars rest
  | c :: rest => c :: percentDecodeChars rest
  | [] => []

/-- Percent-decoding of a whole string. -/
def percentDecode (s : String) : String :=
  String.mk (percentDecodeChars s.data)

/-- Right-fold concatenation of chunks of the form
and-sign, key, equals-sign, value; the normal form into which the foldl of
format_params unfolds. -/
def ampJoinStrs : List String → String
  | [] => ""
  | a :: as => "&" ++ a ++ ampJoinStrs as

theorem format_params_nil : format_params [] = "" := rfl

theorem intercalate_go_amp (acc : String) (as : List String) :
    String.intercalate.go acc "&" as = acc ++ ampJoinStrs as := by
  induction as generalizing acc with
  | nil => exact (String.append_empty acc).symm
  | cons a as ih => simp [String.intercalate.go, ampJoinStrs, ih, String.append_assoc]

theorem intercalate_amp (x : String) (xs : List String) :
    String.intercalate "&" (x :: xs) = x ++ ampJoinStrs xs :=
  intercalate_go_amp x xs

theorem format_params_foldl (ps : List (String × PValue)) (acc : String) :
    ps.foldl (fun paramstring kv => paramstring ++ "&" ++ kv.1 ++ "=" ++ kv.2.toStr) acc =
      acc ++ ampJoinStrs (ps.map fun kv => kv.1 ++ "=" ++ kv.2.toStr) := by
  induction ps generalizing acc with
  | nil => exact (String.append_empty acc).symm
  | cons kv t ih =>
    rw [List.foldl_cons, ih, List.map_cons, ampJoinStrs]
    simp [String.append_assoc]

theorem drop_one_amp (s : String) : ("&" ++ s).drop 1 = s := by
  rw [String.drop_eq, String.data_append]
  rfl

theorem q_api (s : String) : "?" ++ ("&api_key=" ++ s) = "?&api_key=" ++ s := rfl

theorem containsSubstr_intro (pat x y s : String) (h : s = x ++ (pat ++ y)) :
    containsSubstr pat s := ⟨x, y, by rw [h, String.append_assoc]⟩

/-- Claim C1, counterexample: the claim requires every query value to be
percent-encoded, but format_params inserts the value verbatim.  For the
mapping with the single entry filter maps-to "a b" the code produces
"filter=a b", not the percent-encoded "filter=a%20b" the claim requires. -/
theorem c1_counterexample :
    format_params [("filter", PValue.str "a b")] = "filter=a b" ∧
    percentEncode "a b" = "a%20b" ∧
    format_params [("filter", PValue.str "a b")] ≠ "filter=" ++ percentEncode "a b" :=
  ⟨rfl, rfl, by decide⟩

/-- Claim C1 (amended): for every optional-parameter mapping, the produced
query string contains exactly one key=value pair per mapping entry, with
each value included verbatim through str() rather than percent-encoded,
the pairs joined by a single and-sign, and no leading or trailing
and-sign: format_params equals the intercalation of the key=value pairs. -/
theorem c1_format_params_amended (ps : List (String × PValue)) :
    format_params ps = String.intercalate "&" (ps.map fun kv => kv.1 ++ "=" ++ kv.2.toStr) := by
  cases ps with
  | nil => rfl
  | cons kv t =>
    rw [format_params, format_params_foldl, String.empty_append, List.map_cons,
      intercalate_amp, ampJoinStrs, String.append_assoc, drop_one_amp]

/-- Claim C2, code bug: required identifiers are interpolated into the path
verbatim, never percent-encoded.  For characterName and guildName values
containing a space the produced URI contains the raw space, differing from
the percent-encoded segment the claim requires; and for an identifier that
contains a percent sign followed by digits, percent-decoding the generated
segment does not return the original identifier, so the round-trip fails. -/
theorem c2_path_unencoded :
    wclTest.rankings_character_uri "not like this" "herod" "US" [] =
      "https://host/v1/rankings/character/not like this/herod/US?&api_key=KEY123" ∧
    wclTest.rankings_character_uri "not like this" "herod" "US" [] ≠
      "https://host/v1/rankings/character/not%20like%20this/herod/US?&api_key=KEY123" ∧
    percentEncode "not like this" = "not%20like%20this" ∧
    wclTest.reports_guild_uri "a%20b" "herod" "US" [] =
      "https://host/v1/reports/guild/a%20b/herod/US?&api_key=KEY123" ∧
    percentDecode "a%20b" = "a b" ∧
    percentDecode "a%20b" ≠ "a%20b" :=
  ⟨rfl, by decide, rfl, rfl, rfl, by decide⟩

/-- Claim C3, code bug: the two zero-parameter operations build their URI
without any question-mark separator at all: get_zone_list and
get_class_list concatenate the base URI, the path, and the trailing
api_key parameter directly, so the secret key is not part of a query
string, contradicting the claim that every operation places a
question-mark separator before the query string. -/
theorem c3_zone_class_no_separator :
    wclTest.zone_list_uri = "https://host/v1/zones&api_key=KEY123" ∧
    wclTest.class_list_uri = "https://host/v1/classes&api_key=KEY123" ∧
    '?' ∉ wclTest.zone_list_uri.data ∧
    '?' ∉ wclTest.class_list_uri.data :=
  ⟨rfl, rfl, by decide, by decide⟩

/-- Claim C4, counterexample: calling get_reports_list_user with the empty
userName does not fail with an InvalidArgument error and does not skip the
network call: the transport (here an echo stub) is invoked on the built
URI and its decoded body is returned as a success. -/
theorem c4_counterexample :
    (wclTest.get_reports_list_user String (fun s => Except.ok s) (fun u => Except.ok u)
      "" []).1 = Except.ok "https://host/v1/reports/user/?&api_key=KEY123" :=
  rfl

/-- Claim C4 (amended): no operation validates its required identifiers.
For every one of the seven operations that take required string
identifiers, an empty identifier is interpolated verbatim into the path,
leaving an empty path segment, and the GET request is still issued against
the resulting URI; no InvalidArgument failure path exists in the code. -/
theorem c4_no_validation (w : WCL) (J : Type) (decode : String → Except String J)
    (transport : String → Except String String) (ps : List (String × PValue)) :
    (w.get_reports_list_user J decode transport "" ps).1 =
      make_request J decode transport
        (w.request_uri ++ "/reports/user/" ++ "?" ++ format_params ps ++
          "&api_key=" ++ w.api_key) ∧
    (w.get_rankings_list_character J decode transport "" "" "" ps).1 =
      make_request J decode transport
        (w.request_uri ++ "/rankings/character/" ++ "/" ++ "/" ++ "?" ++
          format_params ps ++ "&api_key=" ++ w.api_key) ∧
    (w.get_parses_list_character J decode transport "" "" "" ps).1 =
      make_request J decode transport
        (w.request_uri ++ "/parses/character/" ++ "/" ++ "/" ++ "?" ++
          format_params ps ++ "&api_key=" ++ w.api_key) ∧
    (w.get_reports_list_guild J decode transport "" "" "" ps).1 =
      make_request J decode transport
        (w.request_uri ++ "/reports/guild/" ++ "/" ++ "/" ++ "?" ++
          format_params ps ++ "&api_key=" ++ w.api_key) ∧
    (w.get_report_list_encounter J decode transport "" ps).1 =
      make_request J decode transport
        (w.request_uri ++ "/report/fights/" ++ "?" ++ format_params ps ++
          "&api_key=" ++ w.api_key) ∧
    (w.get_report_list_events J decode transport "" "" ps).1 =
      make_request J decode transport
        (w.request_uri ++ "/report/events/" ++ "/" ++ "?" ++
          format_params ps ++ "&api_key=" ++ w.api_key) ∧
    (w.get_report_list_tables J decode transport "" "" ps).1 =
      make_request J decode transport
        (w.request_uri ++ "/report/tables/" ++ "/" ++ "?" ++
          format_params ps ++ "&api_key=" ++ w.api_key) := by
  refine ⟨?_, ?_, ?_, ?_, ?_, ?_, ?_⟩ <;>
    simp [WCL.get_reports_list_user, WCL.reports_user_uri,
      WCL.get_rankings_list_character, WCL.rankings_character_uri,
      WCL.get_parses_list_character, WCL.parses_character_uri,
      WCL.get_reports_list_guild, WCL.reports_guild_uri,
      WCL.get_report_list_encounter, WCL.report_fights_uri,
      WCL.get_report_list_events, WCL.report_events_uri,
      WCL.get_report_list_tables, WCL.report_tables_uri, String.append_empty]

/-- Claim C5, confirmed: the concrete scenario of the specification.
With base URI https://host/v1 and key KEY123, rankings by encounter 611
with the mapping metric maps-to dps, class maps-to 11 builds exactly
https://host/v1/rankings/encounter/611?metric=dps&class=11&api_key=KEY123
with the parameters in insertion order, and the operation returns the
decoded body of the stubbed transport. -/
theorem c5_encounter_scenario :
    wclTest.rankings_encounter_uri 611 [("metric", PValue.str "dps"), ("class", PValue.int 11)] =
      "https://host/v1/rankings/encounter/611?metric=dps&class=11&api_key=KEY123" ∧
    (wclTest.get_rankings_list_encounter String (fun s => Except.ok s)
      (fun _ => Except.ok "[1,2]")
      611 [("metric", PValue.str "dps"), ("class", PValue.int 11)]).1 = Except.ok "[1,2]" :=
  ⟨rfl, rfl⟩

/-- Claim C6, code bug: reports by guild for the guild named
not like this on server herod, region US, with the empty mapping, does
not percent-encode the space and inserts a stray and-sign between the
question mark and api_key: the code produces the URI ending in
/reports/guild/not like this/herod/US?&api_key=KEY123 instead of the
claimed /reports/guild/not%20like%20this/herod/US?api_key=KEY123. -/
theorem c6_guild_scenario_actual :
    wclTest.reports_guild_uri "not like this" "herod" "US" [] =
      "https://host/v1/reports/guild/not like this/herod/US?&api_key=KEY123" ∧
    wclTest.reports_guild_uri "not like this" "herod" "US" [] ≠
      "https://host/v1/reports/guild/not%20like%20this/herod/US?api_key=KEY123" ∧
    (wclTest.get_reports_list_guild String (fun s => Except.ok s) (fun u => Except.ok u)
      "not like this" "herod" "US" []).1 =
      Except.ok "https://host/v1/reports/guild/not like this/herod/US?&api_key=KEY123" :=
  ⟨rfl, by decide, rfl⟩

/-- Claim C7, confirmed: passthrough fidelity.  For every operation, with a
transport that returns a fixed body on every URI and a decoder that decodes
that body to the JSON value j, the operation returns exactly
Except.ok j, the decoded value unchanged. -/
theorem c7_passthrough (J : Type) (decode : String → Except String J)
    (transport : String → Except String String) (body : String) (j : J)
    (ht : ∀ u, transport u = Except.ok body) (hd : decode body = Except.ok j) (w : WCL) :
    (w.get_zone_list J decode transport).1 = Except.ok j ∧
    (w.get_class_list J decode transport).1 = Except.ok j ∧
    (∀ (eid : Int) ps, (w.get_rankings_list_encounter J decode transport eid ps).1 = Except.ok j) ∧
    (∀ c s r ps, (w.get_rankings_list_character J decode transport c s r ps).1 = Except.ok j) ∧
    (∀ c s r ps, (w.get_parses_list_character J decode transport c s r ps).1 = Except.ok j) ∧
    (∀ g s r ps, (w.get_reports_list_guild J decode transport g s r ps).1 = Except.ok j) ∧
    (∀ u ps, (w.get_reports_list_user J decode transport u ps).1 = Except.ok j) ∧
    (∀ c ps, (w.get_report_list_encounter J decode transport c ps).1 = Except.ok j) ∧
    (∀ v c ps, (w.get_report_list_events J decode transport v c ps).1 = Except.ok j) ∧
    (∀ v c ps, (w.get_report_list_tables J decode transport v c ps).1 = Except.ok j) := by
  have hm : ∀ uri, make_request J decode transport uri = Except.ok j := by
    intro uri
    simp only [make_request, ht uri, hd]
  exact ⟨hm _, hm _, fun _ _ => hm _, fun _ _ _ _ => hm _, fun _ _ _ _ => hm _,
    fun _ _ _ _ => hm _, fun _ _ => hm _, fun _ _ => hm _, fun _ _ _ => hm _,
    fun _ _ _ => hm _⟩

/-- Witness for claim C7 at a concrete instantiation: the identity decoder,
a transport fixed to the body string, and the zone-list operation. -/
theorem c7_passthrough_witness :
    (wclTest.get_zone_list String (fun s => Except.ok s)
      (fun _ => Except.ok "[1,2]")).1 = Except.ok "[1,2]" :=
  (c7_passthrough String (fun s => Except.ok s) (fun _ => Except.ok "[1,2]") "[1,2]" "[1,2]"
    (fun _ => rfl) rfl wclTest).1

/-- Claim C8, confirmed: for every operation, with a transport that returns
a body on which the decoder fails, the operation fails with the decode
error constructor of ReqError, which is distinct by construction from the
transport error constructor, and returns no value. -/
theorem c8_decode_failure (J : Type) (decode : String → Except String J)
    (transport : String → Except String String) (body e : String)
    (ht : ∀ u, transport u = Except.ok body) (hd : decode body = Except.error e) (w : WCL) :
    (w.get_zone_list J decode transport).1 = Except.error (ReqError.decodeErr e) ∧
    (w.get_class_list J decode transport).1 = Except.error (ReqError.decodeErr e) ∧
    (∀ (eid : Int) ps, (w.get_rankings_list_encounter J decode transport eid ps).1 =
      Except.error (ReqError.decodeErr e)) ∧
    (∀ c s r ps, (w.get_rankings_list_character J decode transport c s r ps).1 =
      Except.error (ReqError.decodeErr e)) ∧
    (∀ c s r ps, (w.get_parses_list_character J decode transport c s r ps).1 =
      Except.error (ReqError.decodeErr e)) ∧
    (∀ g s r ps, (w.get_reports_list_guild J decode transport g s r ps).1 =
      Except.error (ReqError.decodeErr e)) ∧
    (∀ u ps, (w.get_reports_list_user J decode transport u ps).1 =
      Except.error (ReqError.decodeErr e)) ∧
    (∀ c ps, (w.get_report_list_encounter J decode transport c ps).1 =
      Except.error (ReqError.decodeErr e)) ∧
    (∀ v c ps, (w.get_report_list_events J decode transport v c ps).1 =
      Except.error (ReqError.decodeErr e)) ∧
    (∀ v c ps, (w.get_report_list_tables J decode transport v c ps).1 =
      Except.error (ReqError.decodeErr e)) := by
  have hm : ∀ uri, make_request J decode transport uri = Except.error (ReqError.decodeErr e) := by
    intro uri
    simp only [make_request, ht uri, hd]
  exact ⟨hm _, hm _, fun _ _ => hm _, fun _ _ _ _ => hm _, fun _ _ _ _ => hm _,
    fun _ _ _ _ => hm _, fun _ _ => hm _, fun _ _ => hm _, fun _ _ _ => hm _,
    fun _ _ _ => hm _⟩

/-- Witness for claim C8 at a concrete instantiation: a decoder that always
fails, a transport fixed to a non-JSON body, and the zone-list operation. -/
theorem c8_decode_failure_witness :
    (wclTest.get_zone_list String (fun _ => Except.error "not json")
      (fun _ => Except.ok "oops")).1 = Except.error (ReqError.decodeErr "not json") :=
  (c8_decode_failure String (fun _ => Except.error "not json") (fun _ => Except.ok "oops")
    "oops" "not json" (fun _ => rfl) rfl wclTest).1

/-- Claim C9, confirmed: the client state consists only of the two fields
request_uri and api_key fixed at construction, and every operation returns
the state unchanged, so the values observable before and after any call
are the same. -/
theorem c9_state_immutable (w : WCL) (J : Type) (decode : String → Except String J)
    (transport : String → Except String String) :
    (w.get_zone_list J decode transport).2 = w ∧
    (w.get_class_list J decode transport).2 = w ∧
    (∀ (eid : Int) ps, (w.get_rankings_list_encounter J decode transport eid ps).2 = w) ∧
    (∀ c s r ps, (w.get_rankings_list_character J decode transport c s r ps).2 = w) ∧
    (∀ c s r ps, (w.get_parses_list_character J decode transport c s r ps).2 = w) ∧
    (∀ g s r ps, (w.get_reports_list_guild J decode transport g s r ps).2 = w) ∧
    (∀ u ps, (w.get_reports_list_user J decode transport u ps).2 = w) ∧
    (∀ c ps, (w.get_report_list_encounter J decode transport c ps).2 = w) ∧
    (∀ v c ps, (w.get_report_list_events J decode transport v c ps).2 = w) ∧
    (∀ v c ps, (w.get_report_list_tables J decode transport v c ps).2 = w) :=
  ⟨rfl, rfl, fun _ _ => rfl, fun _ _ _ _ => rfl, fun _ _ _ _ => rfl, fun _ _ _ _ => rfl,
    fun _ _ => rfl, fun _ _ => rfl, fun _ _ _ => rfl, fun _ _ _ => rfl⟩

/-- Claim C10, confirmed: with the empty parameter mapping the formatted
query string is empty, and every operation that takes a parameter mapping
builds a URI that contains the substring made of a question mark
immediately followed by the and-sign and api_key= before the secret key. -/
theorem c10_empty_params_query (w : WCL) :
    format_params [] = "" ∧
    (∀ eid : Int, containsSubstr "?&api_key=" (w.rankings_encounter_uri eid [])) ∧
    (∀ c s r : String, containsSubstr "?&api_key=" (w.rankings_character_uri c s r [])) ∧
    (∀ c s r : String, containsSubstr "?&api_key=" (w.parses_character_uri c s r [])) ∧
    (∀ g s r : String, containsSubstr "?&api_key=" (w.reports_guild_uri g s r [])) ∧
    (∀ u : String, containsSubstr "?&api_key=" (w.reports_user_uri u [])) ∧
    (∀ c : String, containsSubstr "?&api_key=" (w.report_fights_uri c [])) ∧
    (∀ v c : String, containsSubstr "?&api_key=" (w.report_events_uri v c [])) ∧
    (∀ v c : String, containsSubstr "?&api_key=" (w.report_tables_uri v c [])) := by
  refine ⟨rfl, ?_, ?_, ?_, ?_, ?_, ?_, ?_, ?_⟩
  · intro eid
    exact containsSubstr_intro _ (w.request_uri ++ "/rankings/encounter/" ++ toString eid)
      w.api_key _ (by simp [WCL.rankings_encounter_uri, format_params_nil,
        String.append_empty, String.append_assoc, q_api])
  · intro c s r
    exact containsSubstr_intro _
      (w.request_uri ++ "/rankings/character/" ++ c ++ "/" ++ s ++ "/" ++ r)
      w.api_key _ (by simp [WCL.rankings_character_uri, format_params_nil,
        String.append_empty, String.append_assoc, q_api])
  · intro c s r
    exact containsSubstr_intro _
      (w.request_uri ++ "/parses/character/" ++ c ++ "/" ++ s ++ "/" ++ r)
      w.api_key _ (by simp [WCL.parses_character_uri, format_params_nil,
        String.append_empty, String.append_assoc, q_api])
  · intro g s r
    exact containsSubstr_intro _
      (w.request_uri ++ "/reports/guild/" ++ g ++ "/" ++ s ++ "/" ++ r)
      w.api_key _ (by simp [WCL.reports_guild_uri, format_params_nil,
        String.append_empty, String.append_assoc, q_api])
  · intro u
    exact containsSubstr_intro _ (w.request_uri ++ "/reports/user/" ++ u)
      w.api_key _ (by simp [WCL.reports_user_uri, format_params_nil,
        String.append_empty, String.append_assoc, q_api])
  · intro c
    exact containsSubstr_intro _ (w.request_uri ++ "/report/fights/" ++ c)
      w.api_key _ (by simp [WCL.report_fights_uri, format_params_nil,
        String.append_empty, String.append_assoc, q_api])
  · intro v c
    exact containsSubstr_intro _ (w.request_uri ++ "/report/events/" ++ v ++ "/" ++ c)
      w.api_key _ (by simp [WCL.report_events_uri, format_params_nil,
        String.append_empty, String.append_assoc, q_api])
  · intro v c
    exact containsSubstr_intro _ (w.request_uri ++ "/report/tables/" ++ v ++ "/" ++ c)
      w.api_key _ (by simp [WCL.report_tables_uri, format_params_nil,
        String.append_empty, String.append_assoc, q_api])
